import Mathlib

/-!
Shallow embedding of the action execution engine of the `nix-installer`
repository, restricted to the parts needed by the claims under check:

* the error aggregation fold used by composite actions
  (`src/action/common/configure_shell_profile.rs`,
   `src/action/common/place_nix_configuration.rs`),
* the execute/revert child orderings of the composites,
* `CreateNixGcService::plan` (`src/action/macos/create_gc_service.rs`),
* `EncryptApfsVolume::plan` (`src/action/macos/encrypt_apfs_volume.rs`),
* `MountApfsVolume::execute`/`revert` (`src/action/macos/mount_apfs_volume.rs`),
* `ConfigureInitService::check_if_systemd_unit_exists` and `plan`
  (`src/action/common/configure_init_service.rs`),
* `MoveUnpackedNix::execute` (`src/action/base/move_unpacked_nix.rs`),
* the typetag discriminators versus the declared action tags of all nine
  sampled action variants.

I/O is made explicit: each embedded function takes the outcomes of its
filesystem reads and subprocess calls as parameters and returns the list of
mutating commands it issues together with its `Result`.
-/

namespace NixInstaller

/-! ## Plist data for the GC service (`create_gc_service.rs`, lines 228-244) -/

/-- Embeds `StartCalendarIntervalOpts` (`create_gc_service.rs` lines 238-244). -/
structure StartCalendarIntervalOpts where
  hour : Int
  minute : Int
  weekday : Int
deriving DecidableEq

/-- Embeds `LaunchctlGcPlist` (`create_gc_service.rs` lines 228-236). -/
structure LaunchctlGcPlist where
  label : String
  programArguments : List String
  standardErrorPath : String
  standardOutPath : String
  startCalendarInterval : StartCalendarIntervalOpts
deriving DecidableEq

/-! ## Error model

The modules defining `ActionError` / `ActionErrorKind` are not among the
sampled sources; only their constructors are visible at use sites.  The
shape below is modelled from the spec ("ActionError pairs the tag of an action
with an ActionErrorKind", "a nested Multiple variant holding an ordered
sequence of ActionError", "an open Custom variant") together with the
constructor applications visible in the sampled files. -/

/-- Embeds the domain-specific errors of the sampled actions, transported
through `ActionErrorKind::Custom`: `CreateNixGcServiceError::DifferentPlist`
(`create_gc_service.rs` lines 246-257) and the three
`EncryptApfsVolumeError` variants (`encrypt_apfs_volume.rs` lines 372-380). -/
inductive CustomError where
  | differentPlist (expected : LaunchctlGcPlist) (discovered : LaunchctlGcPlist)
      (path : String)
  | existingPasswordFound (name : String) (disk : String)
  | missingPasswordForExistingVolume (name : String) (disk : String)
  | existingVolumeNotEncrypted (name : String) (disk : String)

/-- Modelled from the spec: the closed `ActionErrorKind` taxonomy (its module
is not among the sampled sources).  Constructors are those applied in the
sampled files; I/O payloads carry the failing path and an error message.
`multipleChildren` holds the `ActionError` of each failed child, each an
action-tag / kind pair, as in
`ActionErrorKind::MultipleChildren(Vec<ActionError>)`. -/
inductive ActionErrorKind where
  | read (path : String) (msg : String)
  | readSymlink (path : String) (msg : String)
  | fileExists (path : String)
  | symlinkExists (path : String)
  | dirExists (path : String)
  | systemdMissing
  | malformedBinaryTarball
  | readDir (path : String) (msg : String)
  | pathWasNotDirectory (path : String)
  | createDirectory (path : String) (msg : String)
  | noGroup (name : String)
  | command (cmd : String) (msg : String)
  | custom (err : CustomError)
  | multipleChildren (children : List (String × ActionErrorKind))
  | multiple (children : List ActionErrorKind)

/-- Modelled from the spec: an `ActionError` pairs the tag of the owning action
with an `ActionErrorKind`. -/
abbrev ActionError := String × ActionErrorKind

/-- Modelled from the spec: `Action::error`, which pairs the calling
tag of the calling action with the given kind. -/
def mkActionError (tag : String) (kind : ActionErrorKind) : ActionError :=
  (tag, kind)

/-! ## ActionState and the stateful wrapper

`ActionState` and `StatefulAction` are referenced throughout the sampled
sources (`StatefulAction::completed`, `StatefulAction::uncompleted`,
`.state == ActionState::Completed`, `.into()`, `try_execute`, `try_revert`)
but their defining module is not among them; they are modelled from the
spec, sections 3 and 4.2. -/

/-- Modelled from the spec: `ActionState` is the enum
`{Uncompleted, Completed}`. -/
inductive ActionState where
  | uncompleted
  | completed
deriving DecidableEq

/-- Modelled from the spec: `StatefulAction<T>` owns one instance of the
concrete operation plus its `ActionState`. -/
structure StatefulAction (α : Type) where
  action : α
  state : ActionState
deriving DecidableEq

/-- Embeds `StatefulAction::completed` as used in the sampled `plan`
functions. -/
def StatefulAction.completedOf (a : α) : StatefulAction α :=
  ⟨a, ActionState.completed⟩

/-- Embeds `StatefulAction::uncompleted` (also the `.into()` conversion the
sampled `plan` functions use for a freshly planned action). -/
def StatefulAction.uncompletedOf (a : α) : StatefulAction α :=
  ⟨a, ActionState.uncompleted⟩

/-- Modelled from the spec, section 4.2: `try_execute` returns success
immediately when the state is already `Completed`; otherwise it runs the
inner `execute` (whose outcome is the `inner` parameter) and transitions to
`Completed` only on success.  Returns the updated wrapper and the result. -/
def StatefulAction.tryExecute (sa : StatefulAction α)
    (inner : Except ActionError Unit) :
    StatefulAction α × Except ActionError Unit :=
  match sa.state with
  | ActionState.completed => (sa, Except.ok ())
  | ActionState.uncompleted =>
    match inner with
    | Except.ok _ => (⟨sa.action, ActionState.completed⟩, Except.ok ())
    | Except.error e => (sa, Except.error e)

/-- Modelled from the spec, section 4.2: `try_revert` is symmetric, gated on
`Uncompleted`. -/
def StatefulAction.tryRevert (sa : StatefulAction α)
    (inner : Except ActionError Unit) :
    StatefulAction α × Except ActionError Unit :=
  match sa.state with
  | ActionState.uncompleted => (sa, Except.ok ())
  | ActionState.completed =>
    match inner with
    | Except.ok _ => (⟨sa.action, ActionState.uncompleted⟩, Except.ok ())
    | Except.error e => (sa, Except.error e)

/-- The error of an `Except`, if any. -/
def exceptError (r : Except ActionError Unit) : Option ActionError :=
  match r with
  | Except.ok _ => none
  | Except.error e => some e

/-! ## The zero/one/many error fold of the composites

Embeds the fold at the end of `ConfigureShellProfile::execute`
(`configure_shell_profile.rs` lines 165-173), `ConfigureShellProfile::revert`
(lines 217-226) and `PlaceNixConfiguration::revert`
(`place_nix_configuration.rs` lines 227-236): an empty error vector is
success, a single collected error is returned as-is (per the spec, a single
child failure is propagated unwrapped), and two or more are wrapped in
`ActionErrorKind::MultipleChildren` tagged with the tag of the composite. -/
def foldChildErrors (tag : String) (errors : List ActionError) :
    Except ActionError Unit :=
  match errors with
  | [] => Except.ok ()
  | [e] => Except.error e
  | es => Except.error (mkActionError tag (ActionErrorKind.multipleChildren es))

/-! ## ConfigureShellProfile (`configure_shell_profile.rs`)

The composite owns `create_directories : Vec<StatefulAction<CreateDirectory>>`
and `create_or_insert_into_files : Vec<StatefulAction<CreateOrInsertIntoFile>>`
(lines 18-22).  The children are abstracted over their payload types; a
inner execute/revert outcome of a child is supplied by an oracle indexed by
the position of the child.  Each model returns the ordered trace of child phase
invocations, the written-back child vectors, and the composite result. -/

/-- The `action_tag` of `ConfigureShellProfile`
(`configure_shell_profile.rs` line 114). -/
def configureShellProfileTag : String := "configure_shell_profile"

/-- One child invocation of the execute or revert of `ConfigureShellProfile`,
recorded for ordering claims. -/
inductive ShellProfileEvent where
  | dirExecute (i : Nat)
  | fileExecute (i : Nat)
  | fileRevert (i : Nat)
  | dirRevert (i : Nat)
deriving DecidableEq

/-- Embeds the sequential loop `for create_directory in &mut
self.create_directories { create_directory.try_execute().await? }`
(`configure_shell_profile.rs` lines 133-135): children run in order, the
`?` stops at the first failure, each successful child is updated in place.
The `i` argument is the position of the first remaining child. -/
def runDirsExecute (inner : Nat → Except ActionError Unit) (i : Nat) :
    List (StatefulAction δ) →
    List ShellProfileEvent × List (StatefulAction δ) × Except ActionError Unit
  | [] => ([], [], Except.ok ())
  | d :: ds =>
    let step := d.tryExecute (inner i)
    match step.2 with
    | Except.error e => ([ShellProfileEvent.dirExecute i], step.1 :: ds, Except.error e)
    | Except.ok _ =>
      let rest := runDirsExecute inner (i + 1) ds
      (ShellProfileEvent.dirExecute i :: rest.1, step.1 :: rest.2.1, rest.2.2)

/-- Embeds the concurrent fan-out of `ConfigureShellProfile::execute`
(`configure_shell_profile.rs` lines 137-163): the `try_execute` of every
file child is spawned on its own task and joined unconditionally; a
successful task writes its updated clone back into slot `idx`, a failed task
leaves the slot untouched and its error is collected.  Spawning (and hence
the recorded trace) follows the vector order; the collected error order
stands for one join order. -/
def runFilesExecute (inner : Nat → Except ActionError Unit) (i : Nat) :
    List (StatefulAction χ) →
    List ShellProfileEvent × List (StatefulAction χ) × List ActionError
  | [] => ([], [], [])
  | f :: fs =>
    let step := f.tryExecute (inner i)
    let rest := runFilesExecute inner (i + 1) fs
    match step.2 with
    | Except.ok _ =>
      (ShellProfileEvent.fileExecute i :: rest.1, step.1 :: rest.2.1, rest.2.2)
    | Except.error e =>
      (ShellProfileEvent.fileExecute i :: rest.1, f :: rest.2.1, e :: rest.2.2)

/-- Embeds the concurrent fan-out of `ConfigureShellProfile::revert`
(`configure_shell_profile.rs` lines 187-209), structured like
`runFilesExecute` but invoking `try_revert`. -/
def runFilesRevert (inner : Nat → Except ActionError Unit) (i : Nat) :
    List (StatefulAction χ) →
    List ShellProfileEvent × List (StatefulAction χ) × List ActionError
  | [] => ([], [], [])
  | f :: fs =>
    let step := f.tryRevert (inner i)
    let rest := runFilesRevert inner (i + 1) fs
    match step.2 with
    | Except.ok _ =>
      (ShellProfileEvent.fileRevert i :: rest.1, step.1 :: rest.2.1, rest.2.2)
    | Except.error e =>
      (ShellProfileEvent.fileRevert i :: rest.1, f :: rest.2.1, e :: rest.2.2)

/-- Embeds the sequential loop `for create_directory in
self.create_directories.iter_mut() { if let Err(err) =
create_directory.try_revert().await { errors.push(err) } }`
(`configure_shell_profile.rs` lines 211-215): every directory child is
attempted in order, errors are collected, no short-circuit. -/
def runDirsRevert (inner : Nat → Except ActionError Unit) (i : Nat) :
    List (StatefulAction δ) →
    List ShellProfileEvent × List (StatefulAction δ) × List ActionError
  | [] => ([], [], [])
  | d :: ds =>
    let step := d.tryRevert (inner i)
    let rest := runDirsRevert inner (i + 1) ds
    match step.2 with
    | Except.ok _ =>
      (ShellProfileEvent.dirRevert i :: rest.1, step.1 :: rest.2.1, rest.2.2)
    | Except.error e =>
      (ShellProfileEvent.dirRevert i :: rest.1, step.1 :: rest.2.1, e :: rest.2.2)

/-- Outcome of one `ConfigureShellProfile` execute or revert call: the
ordered child invocation trace, the written-back child vectors, and the
composite result. -/
structure ShellProfileOutcome (δ χ : Type) where
  trace : List ShellProfileEvent
  dirs : List (StatefulAction δ)
  files : List (StatefulAction χ)
  result : Except ActionError Unit

/-- Embeds `ConfigureShellProfile::execute`
(`configure_shell_profile.rs` lines 131-176): the directory children run
sequentially first (a failure propagates immediately and the file children
are never spawned); then the file children run concurrently, are joined,
and the collected errors go through the zero/one/many fold (lines 165-173). -/
def ConfigureShellProfile.executeModel
    (dirInner fileInner : Nat → Except ActionError Unit)
    (dirs : List (StatefulAction δ)) (files : List (StatefulAction χ)) :
    ShellProfileOutcome δ χ :=
  let dphase := runDirsExecute dirInner 0 dirs
  match dphase.2.2 with
  | Except.error e => ⟨dphase.1, dphase.2.1, files, Except.error e⟩
  | Except.ok _ =>
    let fphase := runFilesExecute fileInner 0 files
    ⟨dphase.1 ++ fphase.1, dphase.2.1, fphase.2.1,
      foldChildErrors configureShellProfileTag fphase.2.2⟩

/-- Embeds `ConfigureShellProfile::revert`
(`configure_shell_profile.rs` lines 185-227): the file children are
reverted concurrently first, then the directory children sequentially, all
attempted, and the concatenated errors go through the zero/one/many fold
(lines 217-226). -/
def ConfigureShellProfile.revertModel
    (dirInner fileInner : Nat → Except ActionError Unit)
    (dirs : List (StatefulAction δ)) (files : List (StatefulAction χ)) :
    ShellProfileOutcome δ χ :=
  let fphase := runFilesRevert fileInner 0 files
  let dphase := runDirsRevert dirInner 0 dirs
  ⟨fphase.1 ++ dphase.1, dphase.2.1, fphase.2.1,
    foldChildErrors configureShellProfileTag (fphase.2.2 ++ dphase.2.2)⟩

/-! ## PlaceNixConfiguration (`place_nix_configuration.rs`)

The composite owns exactly two sequentially dependent children,
`create_directory` and `create_or_merge_nix_config` (lines 20-24). -/

/-- The `action_tag` of `PlaceNixConfiguration`
(`place_nix_configuration.rs` line 162). -/
def placeNixConfigurationTag : String := "place_nix_configuration"

/-- One child invocation of the execute or revert of `PlaceNixConfiguration`. -/
inductive PNCChild where
  | createDirectory
  | createOrMergeNixConfig
deriving DecidableEq

/-- Embeds `PlaceNixConfiguration::execute`
(`place_nix_configuration.rs` lines 193-205): `create_directory.try_execute`
runs first and a failure propagates before `create_or_merge_nix_config`
is invoked.  Returns the invocation trace, the updated children and the
result. -/
def PlaceNixConfiguration.executeModel
    (dirInner cfgInner : Except ActionError Unit)
    (dir : StatefulAction δ) (cfg : StatefulAction κ) :
    List PNCChild × (StatefulAction δ × StatefulAction κ) ×
      Except ActionError Unit :=
  let dstep := dir.tryExecute dirInner
  match dstep.2 with
  | Except.error e => ([PNCChild.createDirectory], (dstep.1, cfg), Except.error e)
  | Except.ok _ =>
    let cstep := cfg.tryExecute cfgInner
    ([PNCChild.createDirectory, PNCChild.createOrMergeNixConfig],
      (dstep.1, cstep.1), cstep.2)

/-- Embeds `PlaceNixConfiguration::revert`
(`place_nix_configuration.rs` lines 217-237): `create_or_merge_nix_config`
is reverted first, then `create_directory`, both always attempted, their
errors collected and folded through the zero/one/many fold (lines 227-236). -/
def PlaceNixConfiguration.revertModel
    (dirInner cfgInner : Except ActionError Unit)
    (dir : StatefulAction δ) (cfg : StatefulAction κ) :
    List PNCChild × (StatefulAction δ × StatefulAction κ) ×
      Except ActionError Unit :=
  let cstep := cfg.tryRevert cfgInner
  let dstep := dir.tryRevert dirInner
  let errors := ((exceptError cstep.2).toList ++ (exceptError dstep.2).toList)
  ([PNCChild.createOrMergeNixConfig, PNCChild.createDirectory],
    (dstep.1, cstep.1), foldChildErrors placeNixConfigurationTag errors)

/-! ## CreateNixGcService (`create_gc_service.rs`) -/

/-- The `action_tag` of `CreateNixGcService` (`create_gc_service.rs` line 99). -/
def createNixGcServiceTag : String := "create_nix_gc_service"

/-- Embeds the `CreateNixGcService` struct (`create_gc_service.rs` lines
23-29). -/
structure CreateNixGcService where
  root : String
  path : String
  serviceLabel : String
  needsBootout : Bool
deriving DecidableEq

/-- Embeds `generate_plist` (`create_gc_service.rs` lines 206-226), with the
home directory passed explicitly in place of `home_dir()`. -/
def generatePlist (home serviceLabel : String) : LaunchctlGcPlist :=
  { startCalendarInterval := { hour := 4, minute := 0, weekday := 7 }
    label := serviceLabel
    programArguments := ["/bin/sh", "-c",
      "/bin/wait4path /nix/var/nix/profiles/default/bin/nix-store && /nix/var/nix/profiles/default/bin/nix-store --gc"]
    standardErrorPath := home ++ "/Library/Logs/nix-gc.err.log"
    standardOutPath := home ++ "/Library/Logs/nix-gc.log" }

/-- Embeds `CreateNixGcService::plan` (`create_gc_service.rs` lines 33-92).
Explicit-I/O parameters: `checkLoaded` is the outcome of the
`launchctl print` probe (its `Ok` value is `status.success()`, stored as
`needs_bootout`), `pathExists` is `this.path.exists()`, and `parsed` is the
outcome of `plist::from_file(&this.path)`, consulted only when the file
exists.  When the file exists and parses equal to the expected generated
plist the action is planned `Completed`; unequal content is the
`DifferentPlist` error; an absent file is planned `Uncompleted`. -/
def CreateNixGcService.planModel (home : String)
    (checkLoaded : Except ActionErrorKind Bool) (pathExists : Bool)
    (parsed : Except ActionErrorKind LaunchctlGcPlist) :
    Except ActionError (StatefulAction CreateNixGcService) :=
  let root := home ++ "/Library/LaunchAgents"
  let path := root ++ "/org.nixos.nix-gc.plist"
  let serviceLabel := "org.nixos.nix-gc"
  match checkLoaded with
  | Except.error k => Except.error (mkActionError createNixGcServiceTag k)
  | Except.ok needsBootout =>
    let this : CreateNixGcService := ⟨root, path, serviceLabel, needsBootout⟩
    if pathExists then
      match parsed with
      | Except.error k => Except.error (mkActionError createNixGcServiceTag k)
      | Except.ok discoveredPlist =>
        let expectedPlist := generatePlist home serviceLabel
        if discoveredPlist ≠ expectedPlist then
          Except.error (mkActionError createNixGcServiceTag
            (ActionErrorKind.custom
              (CustomError.differentPlist expectedPlist discoveredPlist path)))
        else
          Except.ok (StatefulAction.completedOf this)
    else
      Except.ok (StatefulAction.uncompletedOf this)

/-! ## EncryptApfsVolume (`encrypt_apfs_volume.rs`) -/

/-- The `action_tag` of `EncryptApfsVolume`
(`encrypt_apfs_volume.rs` line 108). -/
def encryptApfsVolumeTag : String := "encrypt_apfs_volume"

/-- Embeds the `EncryptApfsVolume` struct
(`encrypt_apfs_volume.rs` lines 23-27). -/
structure EncryptApfsVolume where
  disk : String
  name : String
deriving DecidableEq

/-- Modelled from the spec: one volume entry of the
`os::darwin::DiskUtilApfsListOutput` plist schema (that module is not among
the sampled sources); the fields are those read by
`EncryptApfsVolume::plan` (`volume.name`, `volume.encryption`). -/
structure DiskUtilApfsVolume where
  name : Option String
  encryption : Bool
deriving DecidableEq

/-- Modelled from the spec: one container entry of
`os::darwin::DiskUtilApfsListOutput`. -/
structure DiskUtilApfsContainer where
  volumes : List DiskUtilApfsVolume
deriving DecidableEq

/-- Modelled from the spec: the parsed output of
`diskutil apfs list -plist`. -/
structure DiskUtilApfsListOutput where
  containers : List DiskUtilApfsContainer
deriving DecidableEq

/-- Embeds the inner loop of `EncryptApfsVolume::plan`
(`encrypt_apfs_volume.rs` lines 87-97): the first volume whose name matches
decides the outcome; the code returns the `ExistingVolumeNotEncrypted` error
when `volume.encryption` holds and plans `Completed` when it does not. -/
def scanVolumesForName (name disk : String) :
    List DiskUtilApfsVolume →
    Option (Except ActionError (StatefulAction EncryptApfsVolume))
  | [] => none
  | v :: vs =>
    if v.name = some name then
      some (if v.encryption then
        Except.error (mkActionError encryptApfsVolumeTag
          (ActionErrorKind.custom
            (CustomError.existingVolumeNotEncrypted name disk)))
      else
        Except.ok (StatefulAction.completedOf ⟨disk, name⟩))
    else scanVolumesForName name disk vs

/-- Embeds the outer loop of `EncryptApfsVolume::plan`
(`encrypt_apfs_volume.rs` lines 86-98) over the containers. -/
def scanContainersForName (name disk : String) :
    List DiskUtilApfsContainer →
    Option (Except ActionError (StatefulAction EncryptApfsVolume))
  | [] => none
  | c :: cs =>
    match scanVolumesForName name disk c.volumes with
    | some r => some r
    | none => scanContainersForName name disk cs

/-- Embeds `EncryptApfsVolume::plan` (`encrypt_apfs_volume.rs` lines 30-101).
Explicit-I/O parameters: `passwordCheck` is the outcome of the
`security find-generic-password` probe (its `Ok` value is
`status.success()`), `createdVolumeState` is
`planned_create_apfs_volume.state`, and `listing` is the outcome of running
and parsing `diskutil apfs list -plist`, consulted only on the fall-through
path. -/
def EncryptApfsVolume.planModel (disk name : String)
    (passwordCheck : Except ActionErrorKind Bool)
    (createdVolumeState : ActionState)
    (listing : Except ActionErrorKind DiskUtilApfsListOutput) :
    Except ActionError (StatefulAction EncryptApfsVolume) :=
  match passwordCheck with
  | Except.error k => Except.error (mkActionError encryptApfsVolumeTag k)
  | Except.ok true =>
    if createdVolumeState = ActionState.completed then
      Except.ok (StatefulAction.completedOf ⟨disk, name⟩)
    else
      Except.error (mkActionError encryptApfsVolumeTag
        (ActionErrorKind.custom (CustomError.existingPasswordFound name disk)))
  | Except.ok false =>
    if createdVolumeState = ActionState.completed then
      Except.error (mkActionError encryptApfsVolumeTag
        (ActionErrorKind.custom
          (CustomError.missingPasswordForExistingVolume name disk)))
    else
      match listing with
      | Except.error k => Except.error (mkActionError encryptApfsVolumeTag k)
      | Except.ok parsed =>
        match scanContainersForName name disk parsed.containers with
        | some r => r
        | none => Except.ok (StatefulAction.uncompletedOf ⟨disk, name⟩)

/-! ## MountApfsVolume (`mount_apfs_volume.rs`) -/

/-- The `action_tag` of `MountApfsVolume` (`mount_apfs_volume.rs` line 37). -/
def mountApfsVolumeTag : String := "mount_apfs_volume"

/-- Embeds the `MountApfsVolume` struct (`mount_apfs_volume.rs` lines
16-20). -/
structure MountApfsVolume where
  disk : String
  name : String
deriving DecidableEq

/-- Modelled from the spec: the parsed output of `diskutil info -plist`
(`os::darwin::DiskUtilInfoOutput`, not among the sampled sources); the
fields are those read by the sampled actions (`volume_uuid`,
`mount_point`). -/
structure DiskUtilInfoOutput where
  volumeUuid : String
  mountPoint : Option String
deriving DecidableEq

/-- A mutating `diskutil` invocation issued by `MountApfsVolume`. -/
inductive DiskUtilCmd where
  | mount (name : String)
deriving DecidableEq

/-- Embeds `MountApfsVolume::execute` (`mount_apfs_volume.rs` lines 56-92).
Explicit-I/O parameters: `info` is the outcome of running and parsing
`diskutil info -plist <name>`, `mountResult` the outcome of
`diskutil mount <name>` if issued.  The code computes `currently_unmounted =
mount_point.is_none()` and issues the mount command when
`!currently_unmounted`; otherwise it skips, logging that the volume was
already mounted.  Returns the issued commands and the result. -/
def MountApfsVolume.executeModel (name : String)
    (info : Except ActionErrorKind DiskUtilInfoOutput)
    (mountResult : Except ActionErrorKind Unit) :
    List DiskUtilCmd × Except ActionError Unit :=
  match info with
  | Except.error k => ([], Except.error (mkActionError mountApfsVolumeTag k))
  | Except.ok out =>
    let currentlyUnmounted := out.mountPoint.isNone
    if ¬ currentlyUnmounted then
      match mountResult with
      | Except.ok _ => ([DiskUtilCmd.mount name], Except.ok ())
      | Except.error k =>
        ([DiskUtilCmd.mount name],
          Except.error (mkActionError mountApfsVolumeTag k))
    else
      ([], Except.ok ())

/-- Embeds `MountApfsVolume::revert` (`mount_apfs_volume.rs` lines 98-134),
whose body is line for line the same as `execute`: it probes
`diskutil info -plist <name>` and issues `diskutil mount <name>` when a
mount point is present. -/
def MountApfsVolume.revertModel (name : String)
    (info : Except ActionErrorKind DiskUtilInfoOutput)
    (mountResult : Except ActionErrorKind Unit) :
    List DiskUtilCmd × Except ActionError Unit :=
  match info with
  | Except.error k => ([], Except.error (mkActionError mountApfsVolumeTag k))
  | Except.ok out =>
    let currentlyUnmounted := out.mountPoint.isNone
    if ¬ currentlyUnmounted then
      match mountResult with
      | Except.ok _ => ([DiskUtilCmd.mount name], Except.ok ())
      | Except.error k =>
        ([DiskUtilCmd.mount name],
          Except.error (mkActionError mountApfsVolumeTag k))
    else
      ([], Except.ok ())

/-! ## ConfigureInitService (`configure_init_service.rs`) -/

/-- The `action_tag` of `ConfigureInitService`
(`configure_init_service.rs` line 124). -/
def configureInitServiceTag : String := "configure_init_service"

/-- Embeds `InitSystem` as matched on by `ConfigureInitService` (its
defining module, `settings.rs`, is not among the sampled sources; the three
variants are those matched in `configure_init_service.rs`). -/
inductive InitSystem where
  | launchd
  | systemd
  | noInit
deriving DecidableEq

/-- Embeds the `ConfigureInitService` struct
(`configure_init_service.rs` lines 44-48). -/
structure ConfigureInitService where
  init : InitSystem
  startDaemon : Bool
deriving DecidableEq

/-- The `SERVICE_SRC` constant (`configure_init_service.rs` line 19). -/
def serviceSrc : String :=
  "/nix/var/nix/profiles/default/lib/systemd/system/nix-daemon.service"

/-- The `SERVICE_DEST` constant (`configure_init_service.rs` line 21). -/
def serviceDest : String := "/etc/systemd/system/nix-daemon.service"

/-- The `SOCKET_SRC` constant (`configure_init_service.rs` line 23). -/
def socketSrc : String :=
  "/nix/var/nix/profiles/default/lib/systemd/system/nix-daemon.socket"

/-- The `SOCKET_DEST` constant (`configure_init_service.rs` line 25). -/
def socketDest : String := "/etc/systemd/system/nix-daemon.socket"

/-- The live filesystem state at a systemd unit destination, as probed by
`check_if_systemd_unit_exists`: whether `dest` exists, whether it is a
symlink, the outcome of `read_link(dest)` (consulted only for symlinks),
and whether the override directory `dest + ".d"` exists. -/
structure UnitDestState where
  destPresent : Bool
  destIsSymlink : Bool
  linkDest : Except ActionErrorKind String
  dotDPresent : Bool

/-- Embeds `ConfigureInitService::check_if_systemd_unit_exists`
(`configure_init_service.rs` lines 52-79): an existing non-symlink
destination is the `FileExists` error; an existing symlink whose target
differs from `src` is the `SymlinkExists` error (one pointing at `src` is
accepted); afterwards an existing override directory `dest + ".d"` is the
`DirExists` error. -/
def checkIfSystemdUnitExists (src dest : String) (st : UnitDestState) :
    Except ActionErrorKind Unit :=
  let destCheck : Except ActionErrorKind Unit :=
    if st.destPresent then
      if st.destIsSymlink then
        match st.linkDest with
        | Except.error k => Except.error k
        | Except.ok link =>
          if link ≠ src then
            Except.error (ActionErrorKind.symlinkExists dest)
          else
            Except.ok ()
      else
        Except.error (ActionErrorKind.fileExists dest)
    else
      Except.ok ()
  match destCheck with
  | Except.error k => Except.error k
  | Except.ok _ =>
    if st.dotDPresent then
      Except.error (ActionErrorKind.dirExists (dest ++ ".d"))
    else
      Except.ok ()

/-- Embeds the `InitSystem::Systemd` arm of `ConfigureInitService::plan`
(`configure_init_service.rs` lines 82-117).  Explicit-I/O parameters:
`systemdBooted` is `Path::new("/run/systemd/system").exists()`,
`systemctlFound` is the success of `which::which("systemctl")`, and
`svc`/`sock` are the probed destination states for the service and socket
units.  The plan only reads system state; on success the action is planned
`Uncompleted`. -/
def ConfigureInitService.planModelSystemd (startDaemon : Bool)
    (systemdBooted systemctlFound : Bool) (svc sock : UnitDestState) :
    Except ActionError (StatefulAction ConfigureInitService) :=
  if ¬ systemdBooted then
    Except.error (mkActionError configureInitServiceTag
      ActionErrorKind.systemdMissing)
  else if ¬ systemctlFound then
    Except.error (mkActionError configureInitServiceTag
      ActionErrorKind.systemdMissing)
  else
    match checkIfSystemdUnitExists serviceSrc serviceDest svc with
    | Except.error k =>
      Except.error (mkActionError configureInitServiceTag k)
    | Except.ok _ =>
      match checkIfSystemdUnitExists socketSrc socketDest sock with
      | Except.error k =>
        Except.error (mkActionError configureInitServiceTag k)
      | Except.ok _ =>
        Except.ok (StatefulAction.uncompletedOf
          ⟨InitSystem.systemd, startDaemon⟩)

/-! ## MoveUnpackedNix (`move_unpacked_nix.rs`) -/

/-- The `action_tag` of `MoveUnpackedNix` (`move_unpacked_nix.rs` line 46). -/
def moveUnpackedNixTag : String := "move_unpacked_nix"

/-- Embeds the `MoveUnpackedNix` struct (`move_unpacked_nix.rs` lines
22-26). -/
structure MoveUnpackedNix where
  unpackedPath : String
  nixBuildGroupName : String
deriving DecidableEq

/-- The `DEST` constant (`move_unpacked_nix.rs` line 17). -/
def moveUnpackedNixDest : String := "/nix/"

/-- A filesystem mutation issued by `MoveUnpackedNix::execute`, recorded to
state what the destination-store side effects are on each path through the
function. -/
inductive FsMutation where
  | createDir (p : String)
  | chownDir (p : String)
  | removeDirAll (p : String)
  | renamePath (src dest : String)
  | setReadonly (p : String)
  | symlinkBack (dest src : String)
deriving DecidableEq

/-- The live system state read by `MoveUnpackedNix::execute`:
`foundNixPaths` is the (successful) result of globbing
`{unpacked_path}/nix-*`, `srcStoreListing` the outcome of
`read_dir(found_nix_path/store)` as a list of entry names,
`destStoreVisible`/`destStoreIsDir` the probes on `/nix/store`, `groupGid`
the result of `get_group_by_name`, `entryDestOccupied` whether a
destination entry already exists, and `walkPaths` the non-symlink paths
`WalkDir` yields under a renamed entry.  Per-entry filesystem calls after
the initial checks are taken as succeeding; their failure paths do not
matter for the properties proved here. -/
structure MoveCtx where
  foundNixPaths : List String
  srcStoreListing : Except ActionErrorKind (List String)
  destStoreVisible : Bool
  destStoreIsDir : Bool
  groupGid : Option Nat
  entryDestOccupied : String → Bool
  walkPaths : String → List String

/-- Embeds the per-entry loop of `MoveUnpackedNix::execute`
(`move_unpacked_nix.rs` lines 112-164): an occupied destination entry is
removed, the source entry is renamed into place, every walked path is made
read-only, and a back link is left at the source. -/
def moveEntries (ctx : MoveCtx) (srcStore destStore : String) :
    List String → List FsMutation
  | [] => []
  | e :: es =>
    let entrySrc := srcStore ++ "/" ++ e
    let entryDest := destStore ++ "/" ++ e
    ((if ctx.entryDestOccupied entryDest then [FsMutation.removeDirAll entryDest]
      else []) ++
      [FsMutation.renamePath entrySrc entryDest] ++
      (ctx.walkPaths entryDest).map FsMutation.setReadonly ++
      [FsMutation.symlinkBack entryDest entrySrc]) ++
      moveEntries ctx srcStore destStore es

/-- Embeds `MoveUnpackedNix::execute` (`move_unpacked_nix.rs` lines 72-167).
The glob over `{unpacked_path}/nix-*` must match exactly one path: any other
count is the `MalformedBinaryTarball` error, raised before anything is
touched.  Otherwise the source store is listed, `/nix/store` is created
(then chowned, after the group lookup) when absent, and the entries are
moved.  Returns the issued filesystem mutations and the result. -/
def MoveUnpackedNix.executeModel (a : MoveUnpackedNix) (ctx : MoveCtx) :
    List FsMutation × Except ActionError Unit :=
  if ctx.foundNixPaths.length ≠ 1 then
    ([], Except.error (mkActionError moveUnpackedNixTag
      ActionErrorKind.malformedBinaryTarball))
  else
    let foundNixPath := ctx.foundNixPaths.headD ""
    let srcStore := foundNixPath ++ "/store"
    match ctx.srcStoreListing with
    | Except.error k => ([], Except.error (mkActionError moveUnpackedNixTag k))
    | Except.ok entries =>
      let destStore := "/nix/store"
      if ctx.destStoreVisible then
        if ¬ ctx.destStoreIsDir then
          ([], Except.error (mkActionError moveUnpackedNixTag
            (ActionErrorKind.pathWasNotDirectory destStore)))
        else
          (moveEntries ctx srcStore destStore entries, Except.ok ())
      else
        match ctx.groupGid with
        | none =>
          ([FsMutation.createDir destStore],
            Except.error (mkActionError moveUnpackedNixTag
              (ActionErrorKind.noGroup a.nixBuildGroupName)))
        | some _ =>
          (FsMutation.createDir destStore :: FsMutation.chownDir destStore ::
            moveEntries ctx srcStore destStore entries, Except.ok ())

/-! ## Action variant tags

Each sampled variant declares a `typetag` discriminator (the name under
which `StatefulAction` nodes of that variant serialize and deserialize) and
an `action_tag`. -/

/-- The nine action variants among the sampled sources. -/
inductive ActionVariant where
  | fetchAndUnpackNix
  | moveUnpackedNix
  | configureInitService
  | configureShellProfile
  | placeNixConfiguration
  | createNixGcService
  | createNixOptimizeService
  | encryptApfsVolume
  | mountApfsVolume
deriving DecidableEq

/-- The `typetag::serde(name = ...)` discriminator of each sampled variant
(`fetch_and_unpack_nix.rs` line 66, `move_unpacked_nix.rs` line 43,
`configure_init_service.rs` line 121, `configure_shell_profile.rs` line 111,
`place_nix_configuration.rs` line 159, `create_gc_service.rs` line 96,
`create_optimize_service.rs` line 92, `encrypt_apfs_volume.rs` line 105,
`mount_apfs_volume.rs` line 34). -/
def ActionVariant.typetagName : ActionVariant → String
  | ActionVariant.fetchAndUnpackNix => "fetch_and_unpack_nix"
  | ActionVariant.moveUnpackedNix => "mount_unpacked_nix"
  | ActionVariant.configureInitService => "configure_init_service"
  | ActionVariant.configureShellProfile => "configure_shell_profile"
  | ActionVariant.placeNixConfiguration => "place_nix_configuration"
  | ActionVariant.createNixGcService => "create_nix_gc_service"
  | ActionVariant.createNixOptimizeService => "create_nix_optimize_service"
  | ActionVariant.encryptApfsVolume => "encrypt_volume"
  | ActionVariant.mountApfsVolume => "unmount_volume"

/-- The declared `action_tag` of each sampled variant
(`fetch_and_unpack_nix.rs` line 69, `move_unpacked_nix.rs` line 46,
`configure_init_service.rs` line 124, `configure_shell_profile.rs` line 114,
`place_nix_configuration.rs` line 162, `create_gc_service.rs` line 99,
`create_optimize_service.rs` line 95, `encrypt_apfs_volume.rs` line 108,
`mount_apfs_volume.rs` line 37). -/
def ActionVariant.actionTag : ActionVariant → String
  | ActionVariant.fetchAndUnpackNix => "fetch_and_unpack_nix"
  | ActionVariant.moveUnpackedNix => "move_unpacked_nix"
  | ActionVariant.configureInitService => "configure_init_service"
  | ActionVariant.configureShellProfile => "configure_shell_profile"
  | ActionVariant.placeNixConfiguration => "place_nix_configuration"
  | ActionVariant.createNixGcService => "create_nix_gc_service"
  | ActionVariant.createNixOptimizeService => "create_nix_optimize_service"
  | ActionVariant.encryptApfsVolume => "encrypt_apfs_volume"
  | ActionVariant.mountApfsVolume => "mount_apfs_volume"

/-- All sampled action variants. -/
def allActionVariants : List ActionVariant :=
  [ActionVariant.fetchAndUnpackNix, ActionVariant.moveUnpackedNix,
   ActionVariant.configureInitService, ActionVariant.configureShellProfile,
   ActionVariant.placeNixConfiguration, ActionVariant.createNixGcService,
   ActionVariant.createNixOptimizeService, ActionVariant.encryptApfsVolume,
   ActionVariant.mountApfsVolume]

/-- Modelled from the spec: the deserialization registry maps a serialized
discriminator back to the variant that declared it. -/
def deserializeVariant (s : String) : Option ActionVariant :=
  allActionVariants.find? (fun v => v.typetagName = s)

/-! ## Helper lemmas -/

/-- On an uncompleted wrapper, `try_execute` runs the inner execute and
transitions to `Completed` exactly on success. -/
theorem StatefulAction.tryExecute_uncompleted (f : StatefulAction α)
    (h : f.state = ActionState.uncompleted) (r : Except ActionError Unit) :
    f.tryExecute r = (match r with
      | Except.ok _ => (⟨f.action, ActionState.completed⟩, Except.ok ())
      | Except.error e => (f, Except.error e)) := by
  cases r <;> simp [StatefulAction.tryExecute, h]

/-- On a completed wrapper, `try_execute` is a successful no-op. -/
theorem StatefulAction.tryExecute_completed (f : StatefulAction α)
    (h : f.state = ActionState.completed) (r : Except ActionError Unit) :
    f.tryExecute r = (f, Except.ok ()) := by
  simp [StatefulAction.tryExecute, h]

/-- When the inner execute succeeds, `try_execute` succeeds from either
state. -/
theorem StatefulAction.tryExecute_ok (f : StatefulAction α) :
    (f.tryExecute (Except.ok ())).2 = Except.ok () := by
  cases h : f.state <;> simp [StatefulAction.tryExecute, h]

/-- On a completed wrapper, `try_revert` runs the inner revert and
transitions to `Uncompleted` exactly on success. -/
theorem StatefulAction.tryRevert_completed (f : StatefulAction α)
    (h : f.state = ActionState.completed) (r : Except ActionError Unit) :
    f.tryRevert r = (match r with
      | Except.ok _ => (⟨f.action, ActionState.uncompleted⟩, Except.ok ())
      | Except.error e => (f, Except.error e)) := by
  cases r <;> simp [StatefulAction.tryRevert, h]

/-- Trace of the concurrent file execute phase: one spawn per file child,
in vector order, whatever the child states and results are. -/
theorem runFilesExecute_trace (inner : Nat → Except ActionError Unit)
    (k : Nat) (files : List (StatefulAction χ)) :
    (runFilesExecute inner k files).1
      = (List.range' k files.length).map ShellProfileEvent.fileExecute := by
  induction files generalizing k with
  | nil => simp [runFilesExecute]
  | cons f fs ih =>
    cases h : (f.tryExecute (inner k)).2 <;>
      simp [runFilesExecute, h, ih (k + 1), List.range'_succ]

/-- Collected errors of the concurrent file execute phase over uncompleted
children: exactly the inner failures, in spawn order. -/
theorem runFilesExecute_errors (inner : Nat → Except ActionError Unit)
    (k : Nat) (files : List (StatefulAction χ))
    (hall : ∀ f ∈ files, f.state = ActionState.uncompleted) :
    (runFilesExecute inner k files).2.2
      = (List.range' k files.length).filterMap (fun j => exceptError (inner j)) := by
  induction files generalizing k with
  | nil => simp [runFilesExecute]
  | cons f fs ih =>
    have hf : f.state = ActionState.uncompleted := hall f (List.mem_cons_self f fs)
    have hfs : ∀ g ∈ fs, g.state = ActionState.uncompleted :=
      fun g hg => hall g (List.mem_cons_of_mem f hg)
    cases hr : inner k with
    | ok u =>
      simp [runFilesExecute, StatefulAction.tryExecute_uncompleted f hf, hr,
        ih (k + 1) hfs, List.range'_succ, exceptError]
    | error e =>
      simp [runFilesExecute, StatefulAction.tryExecute_uncompleted f hf, hr,
        ih (k + 1) hfs, List.range'_succ, exceptError]

/-- Written-back children of the concurrent file execute phase over
uncompleted children: a child whose inner execute succeeded is stored back
as completed, a failed child keeps its original slot. -/
theorem runFilesExecute_get? (inner : Nat → Except ActionError Unit)
    (k : Nat) (files : List (StatefulAction χ))
    (hall : ∀ f ∈ files, f.state = ActionState.uncompleted) (j : Nat) :
    (runFilesExecute inner k files).2.1.get? j
      = (files.get? j).map (fun f => match inner (k + j) with
          | Except.ok _ => ⟨f.action, ActionState.completed⟩
          | Except.error _ => f) := by
  induction files generalizing k j with
  | nil => simp [runFilesExecute]
  | cons f fs ih =>
    have hf : f.state = ActionState.uncompleted := hall f (List.mem_cons_self f fs)
    have hfs : ∀ g ∈ fs, g.state = ActionState.uncompleted :=
      fun g hg => hall g (List.mem_cons_of_mem f hg)
    cases j with
    | zero =>
      cases hr : inner k with
      | ok u =>
        simp [runFilesExecute, StatefulAction.tryExecute_uncompleted f hf, hr]
      | error e =>
        simp [runFilesExecute, StatefulAction.tryExecute_uncompleted f hf, hr]
    | succ j =>
      have harith : k + 1 + j = k + (j + 1) := by omega
      cases hr : inner k with
      | ok u =>
        simpa [runFilesExecute, StatefulAction.tryExecute_uncompleted f hf, hr,
          harith] using ih (k + 1) hfs j
      | error e =>
        simpa [runFilesExecute, StatefulAction.tryExecute_uncompleted f hf, hr,
          harith] using ih (k + 1) hfs j

/-- Trace of the concurrent file revert phase: one spawn per file child, in
vector order, unconditionally. -/
theorem runFilesRevert_trace (inner : Nat → Except ActionError Unit)
    (k : Nat) (files : List (StatefulAction χ)) :
    (runFilesRevert inner k files).1
      = (List.range' k files.length).map ShellProfileEvent.fileRevert := by
  induction files generalizing k with
  | nil => simp [runFilesRevert]
  | cons f fs ih =>
    cases h : (f.tryRevert (inner k)).2 <;>
      simp [runFilesRevert, h, ih (k + 1), List.range'_succ]

/-- Collected errors of the concurrent file revert phase over completed
children: exactly the inner failures, in spawn order. -/
theorem runFilesRevert_errors (inner : Nat → Except ActionError Unit)
    (k : Nat) (files : List (StatefulAction χ))
    (hall : ∀ f ∈ files, f.state = ActionState.completed) :
    (runFilesRevert inner k files).2.2
      = (List.range' k files.length).filterMap (fun j => exceptError (inner j)) := by
  induction files generalizing k with
  | nil => simp [runFilesRevert]
  | cons f fs ih =>
    have hf : f.state = ActionState.completed := hall f (List.mem_cons_self f fs)
    have hfs : ∀ g ∈ fs, g.state = ActionState.completed :=
      fun g hg => hall g (List.mem_cons_of_mem f hg)
    cases hr : inner k with
    | ok u =>
      simp [runFilesRevert, StatefulAction.tryRevert_completed f hf, hr,
        ih (k + 1) hfs, List.range'_succ, exceptError]
    | error e =>
      simp [runFilesRevert, StatefulAction.tryRevert_completed f hf, hr,
        ih (k + 1) hfs, List.range'_succ, exceptError]

/-- Trace of the sequential directory revert loop: every directory child is
attempted, in vector order, unconditionally. -/
theorem runDirsRevert_trace (inner : Nat → Except ActionError Unit)
    (k : Nat) (dirs : List (StatefulAction δ)) :
    (runDirsRevert inner k dirs).1
      = (List.range' k dirs.length).map ShellProfileEvent.dirRevert := by
  induction dirs generalizing k with
  | nil => simp [runDirsRevert]
  | cons d ds ih =>
    cases h : (d.tryRevert (inner k)).2 <;>
      simp [runDirsRevert, h, ih (k + 1), List.range'_succ]

/-- Trace of the sequential directory execute loop when every inner execute
succeeds: every directory child is invoked, in vector order. -/
theorem runDirsExecute_trace_ok (inner : Nat → Except ActionError Unit)
    (k : Nat) (dirs : List (StatefulAction δ))
    (hok : ∀ i, inner i = Except.ok ()) :
    (runDirsExecute inner k dirs).1
      = (List.range' k dirs.length).map ShellProfileEvent.dirExecute
    ∧ (runDirsExecute inner k dirs).2.2 = Except.ok () := by
  induction dirs generalizing k with
  | nil => simp [runDirsExecute]
  | cons d ds ih =>
    have hstep : (d.tryExecute (inner k)).2 = Except.ok () := by
      rw [hok k]; exact StatefulAction.tryExecute_ok d
    have ihk := ih (k + 1)
    simp [runDirsExecute, hstep, ihk.1, ihk.2, List.range'_succ]

/-- The zero/one/many fold wraps two or more collected errors in the
aggregate `MultipleChildren` kind, none dropped. -/
theorem foldChildErrors_many (tag : String) (errors : List ActionError)
    (h : 2 ≤ errors.length) :
    foldChildErrors tag errors
      = Except.error (mkActionError tag
          (ActionErrorKind.multipleChildren errors)) := by
  match errors with
  | [] => simp at h
  | [e] => simp at h
  | a :: b :: rest => rfl

/-- A `filterMap` over a contiguous index range where exactly one index
yields a value produces the singleton of that value. -/
theorem filterMap_range'_single {α : Type} (g : Nat → Option α) (e : α)
    (k n i : Nat) (hi : i < n) (hgi : g (k + i) = some e)
    (hg : ∀ j, j < n → j ≠ i → g (k + j) = none) :
    (List.range' k n).filterMap g = [e] := by
  induction n generalizing k i with
  | zero => omega
  | succ n ih =>
    rw [List.range'_succ, List.filterMap_cons]
    cases i with
    | zero =>
      rw [show k = k + 0 from rfl] at hgi ⊢
      rw [hgi]
      have hrest : (List.range' (k + 0 + 1) n).filterMap g = [] := by
        rw [List.filterMap_eq_nil_iff]
        intro a ha
        rw [List.mem_range'_1] at ha
        have hj := hg (a - k) (by omega) (by omega)
        rwa [show k + (a - k) = a by omega] at hj
      rw [hrest]
    | succ i =>
      have h0 : g k = none := by
        have := hg 0 (by omega) (by omega)
        rwa [Nat.add_zero] at this
      rw [h0]
      exact ih (k + 1) i (by omega)
        (by rwa [show k + 1 + i = k + (i + 1) by omega])
        (fun j hj hne => by
          rw [show k + 1 + j = k + (j + 1) by omega]
          exact hg (j + 1) (by omega) (by omega))

/-- With no directory children, the result of
`ConfigureShellProfile::execute` is the zero/one/many fold of the errors
collected from the joined file tasks, and the written-back file vector is
the one produced by the join loop. -/
theorem executeModel_no_dirs (fileInner : Nat → Except ActionError Unit)
    (files : List (StatefulAction Unit)) :
    ConfigureShellProfile.executeModel (fun _ => Except.ok ()) fileInner
        ([] : List (StatefulAction Unit)) files
      = ⟨(runFilesExecute fileInner 0 files).1,
         [], (runFilesExecute fileInner 0 files).2.1,
         foldChildErrors configureShellProfileTag
           (runFilesExecute fileInner 0 files).2.2⟩ := by
  simp [ConfigureShellProfile.executeModel, runDirsExecute]

/-- With no directory children, the result of
`ConfigureShellProfile::revert` is the zero/one/many fold of the errors
collected from the joined file revert tasks. -/
theorem revertModel_no_dirs (fileInner : Nat → Except ActionError Unit)
    (files : List (StatefulAction Unit)) :
    ConfigureShellProfile.revertModel (fun _ => Except.ok ()) fileInner
        ([] : List (StatefulAction Unit)) files
      = ⟨(runFilesRevert fileInner 0 files).1,
         [], (runFilesRevert fileInner 0 files).2.1,
         foldChildErrors configureShellProfileTag
           (runFilesRevert fileInner 0 files).2.2⟩ := by
  simp [ConfigureShellProfile.revertModel, runDirsRevert]

/-! ## Claim theorems -/

/-- C1: after all spawned child tasks of `ConfigureShellProfile` have been
joined (execute and revert alike), zero failed children give success;
exactly one failed child propagates that single error directly, not wrapped
in the aggregate variant; two or more failed children give an aggregate
`MultipleChildren` error containing exactly the errors of the failed children,
none dropped. -/
theorem configureShellProfile_child_error_aggregation
    (fileInnerE fileInnerR : Nat → Except ActionError Unit)
    (filesE filesR : List (StatefulAction Unit))
    (hallE : ∀ f ∈ filesE, f.state = ActionState.uncompleted)
    (hallR : ∀ f ∈ filesR, f.state = ActionState.completed) :
    ((List.range' 0 filesE.length).filterMap
        (fun j => exceptError (fileInnerE j)) = [] →
      (ConfigureShellProfile.executeModel (fun _ => Except.ok ()) fileInnerE
        ([] : List (StatefulAction Unit)) filesE).result = Except.ok ())
    ∧ (∀ e, (List.range' 0 filesE.length).filterMap
        (fun j => exceptError (fileInnerE j)) = [e] →
      (ConfigureShellProfile.executeModel (fun _ => Except.ok ()) fileInnerE
        ([] : List (StatefulAction Unit)) filesE).result = Except.error e)
    ∧ (2 ≤ ((List.range' 0 filesE.length).filterMap
        (fun j => exceptError (fileInnerE j))).length →
      (ConfigureShellProfile.executeModel (fun _ => Except.ok ()) fileInnerE
        ([] : List (StatefulAction Unit)) filesE).result
        = Except.error (mkActionError configureShellProfileTag
            (ActionErrorKind.multipleChildren
              ((List.range' 0 filesE.length).filterMap
                (fun j => exceptError (fileInnerE j))))))
    ∧ ((List.range' 0 filesR.length).filterMap
        (fun j => exceptError (fileInnerR j)) = [] →
      (ConfigureShellProfile.revertModel (fun _ => Except.ok ()) fileInnerR
        ([] : List (StatefulAction Unit)) filesR).result = Except.ok ())
    ∧ (∀ e, (List.range' 0 filesR.length).filterMap
        (fun j => exceptError (fileInnerR j)) = [e] →
      (ConfigureShellProfile.revertModel (fun _ => Except.ok ()) fileInnerR
        ([] : List (StatefulAction Unit)) filesR).result = Except.error e)
    ∧ (2 ≤ ((List.range' 0 filesR.length).filterMap
        (fun j => exceptError (fileInnerR j))).length →
      (ConfigureShellProfile.revertModel (fun _ => Except.ok ()) fileInnerR
        ([] : List (StatefulAction Unit)) filesR).result
        = Except.error (mkActionError configureShellProfileTag
            (ActionErrorKind.multipleChildren
              ((List.range' 0 filesR.length).filterMap
                (fun j => exceptError (fileInnerR j)))))) := by
  have hE : (ConfigureShellProfile.executeModel (fun _ => Except.ok ())
      fileInnerE ([] : List (StatefulAction Unit)) filesE).result
      = foldChildErrors configureShellProfileTag
          ((List.range' 0 filesE.length).filterMap
            (fun j => exceptError (fileInnerE j))) := by
    rw [executeModel_no_dirs, ← runFilesExecute_errors fileInnerE 0 filesE hallE]
  have hR : (ConfigureShellProfile.revertModel (fun _ => Except.ok ())
      fileInnerR ([] : List (StatefulAction Unit)) filesR).result
      = foldChildErrors configureShellProfileTag
          ((List.range' 0 filesR.length).filterMap
            (fun j => exceptError (fileInnerR j))) := by
    rw [revertModel_no_dirs, ← runFilesRevert_errors fileInnerR 0 filesR hallR]
  refine ⟨fun h => ?_, fun e h => ?_, fun h => ?_,
          fun h => ?_, fun e h => ?_, fun h => ?_⟩
  · rw [hE, h]; rfl
  · rw [hE, h]; rfl
  · rw [hE]; exact foldChildErrors_many _ _ h
  · rw [hR, h]; rfl
  · rw [hR, h]; rfl
  · rw [hR]; exact foldChildErrors_many _ _ h

/-- Witness for C1: a concrete composite with three file children of which
the first two fail on execute produces the aggregate of exactly those two
errors; a concrete composite with two file children of which the first
fails on revert propagates that single error unwrapped. -/
theorem configureShellProfile_child_error_aggregation_witness :
    (ConfigureShellProfile.executeModel (fun _ => Except.ok ())
        (fun j => if j = 0 then Except.error ("a", ActionErrorKind.systemdMissing)
          else if j = 1 then Except.error ("b", ActionErrorKind.systemdMissing)
          else Except.ok ())
        ([] : List (StatefulAction Unit))
        [⟨(), ActionState.uncompleted⟩, ⟨(), ActionState.uncompleted⟩,
         ⟨(), ActionState.uncompleted⟩]).result
      = Except.error (mkActionError configureShellProfileTag
          (ActionErrorKind.multipleChildren
            [("a", ActionErrorKind.systemdMissing),
             ("b", ActionErrorKind.systemdMissing)]))
    ∧ (ConfigureShellProfile.revertModel (fun _ => Except.ok ())
        (fun j => if j = 0 then Except.error ("c", ActionErrorKind.systemdMissing)
          else Except.ok ())
        ([] : List (StatefulAction Unit))
        [⟨(), ActionState.completed⟩, ⟨(), ActionState.completed⟩]).result
      = Except.error ("c", ActionErrorKind.systemdMissing) := by
  have h := configureShellProfile_child_error_aggregation
    (fun j => if j = 0 then Except.error ("a", ActionErrorKind.systemdMissing)
      else if j = 1 then Except.error ("b", ActionErrorKind.systemdMissing)
      else Except.ok ())
    (fun j => if j = 0 then Except.error ("c", ActionErrorKind.systemdMissing)
      else Except.ok ())
    [⟨(), ActionState.uncompleted⟩, ⟨(), ActionState.uncompleted⟩,
     ⟨(), ActionState.uncompleted⟩]
    [⟨(), ActionState.completed⟩, ⟨(), ActionState.completed⟩]
    (by decide) (by decide)
  exact ⟨h.2.2.1 (by decide),
         h.2.2.2.2.1 ("c", ActionErrorKind.systemdMissing) rfl⟩

/-- C2: `PlaceNixConfiguration` executes `create_directory` then
`create_or_merge_nix_config` and reverts them in strict reverse order,
unconditionally; `ConfigureShellProfile` executes all `create_directories`
children before any file child and reverts all file children before any
`create_directories` child. -/
theorem composite_reverse_order_revert
    (dirInner fileInner dirInnerR fileInnerR : Nat → Except ActionError Unit)
    (dirs files : List (StatefulAction Unit))
    (hdirs : ∀ i, dirInner i = Except.ok ())
    (pdInner pcInner pdInnerR pcInnerR : Except ActionError Unit)
    (pdir pcfg : StatefulAction Unit)
    (hpd : pdInner = Except.ok ()) :
    ((PlaceNixConfiguration.executeModel pdInner pcInner pdir pcfg).1
        = [PNCChild.createDirectory, PNCChild.createOrMergeNixConfig])
    ∧ ((PlaceNixConfiguration.revertModel pdInnerR pcInnerR pdir pcfg).1
        = [PNCChild.createOrMergeNixConfig, PNCChild.createDirectory])
    ∧ ((PlaceNixConfiguration.revertModel pdInnerR pcInnerR pdir pcfg).1
        = (PlaceNixConfiguration.executeModel pdInner pcInner pdir pcfg).1.reverse)
    ∧ ((ConfigureShellProfile.executeModel dirInner fileInner dirs files).trace
        = (List.range' 0 dirs.length).map ShellProfileEvent.dirExecute
          ++ (List.range' 0 files.length).map ShellProfileEvent.fileExecute)
    ∧ ((ConfigureShellProfile.revertModel dirInnerR fileInnerR dirs files).trace
        = (List.range' 0 files.length).map ShellProfileEvent.fileRevert
          ++ (List.range' 0 dirs.length).map ShellProfileEvent.dirRevert) := by
  have hstep : (pdir.tryExecute pdInner).2 = Except.ok () := by
    rw [hpd]; exact StatefulAction.tryExecute_ok pdir
  have he : (PlaceNixConfiguration.executeModel pdInner pcInner pdir pcfg).1
      = [PNCChild.createDirectory, PNCChild.createOrMergeNixConfig] := by
    simp only [PlaceNixConfiguration.executeModel, hstep]
  have hd := runDirsExecute_trace_ok dirInner 0 dirs hdirs
  have hcsp :
      (ConfigureShellProfile.executeModel dirInner fileInner dirs files).trace
      = (List.range' 0 dirs.length).map ShellProfileEvent.dirExecute
        ++ (List.range' 0 files.length).map ShellProfileEvent.fileExecute := by
    simp only [ConfigureShellProfile.executeModel, hd.2]
    rw [hd.1, runFilesExecute_trace]
  refine ⟨he, rfl, ?_, hcsp, ?_⟩
  · rw [he]; rfl
  · simp only [ConfigureShellProfile.revertModel]
    rw [runFilesRevert_trace, runDirsRevert_trace]

/-- Witness for C2: a concrete `PlaceNixConfiguration` and a concrete
`ConfigureShellProfile` with one directory child and two file children show
the execute and revert orders. -/
theorem composite_reverse_order_revert_witness :
    ((PlaceNixConfiguration.executeModel (Except.ok ()) (Except.ok ())
        (⟨(), ActionState.uncompleted⟩ : StatefulAction Unit)
        (⟨(), ActionState.uncompleted⟩ : StatefulAction Unit)).1
      = [PNCChild.createDirectory, PNCChild.createOrMergeNixConfig])
    ∧ ((PlaceNixConfiguration.revertModel (Except.ok ()) (Except.ok ())
        (⟨(), ActionState.completed⟩ : StatefulAction Unit)
        (⟨(), ActionState.completed⟩ : StatefulAction Unit)).1
      = [PNCChild.createOrMergeNixConfig, PNCChild.createDirectory])
    ∧ ((ConfigureShellProfile.executeModel (fun _ => Except.ok ())
        (fun _ => Except.ok ())
        [(⟨(), ActionState.uncompleted⟩ : StatefulAction Unit)]
        [(⟨(), ActionState.uncompleted⟩ : StatefulAction Unit),
         ⟨(), ActionState.uncompleted⟩]).trace
      = [ShellProfileEvent.dirExecute 0, ShellProfileEvent.fileExecute 0,
         ShellProfileEvent.fileExecute 1])
    ∧ ((ConfigureShellProfile.revertModel (fun _ => Except.ok ())
        (fun _ => Except.ok ())
        [(⟨(), ActionState.completed⟩ : StatefulAction Unit)]
        [(⟨(), ActionState.completed⟩ : StatefulAction Unit),
         ⟨(), ActionState.completed⟩]).trace
      = [ShellProfileEvent.fileRevert 0, ShellProfileEvent.fileRevert 1,
         ShellProfileEvent.dirRevert 0]) := by
  have h := composite_reverse_order_revert
    (fun _ => Except.ok ()) (fun _ => Except.ok ())
    (fun _ => Except.ok ()) (fun _ => Except.ok ())
    [(⟨(), ActionState.uncompleted⟩ : StatefulAction Unit)]
    [(⟨(), ActionState.uncompleted⟩ : StatefulAction Unit),
     ⟨(), ActionState.uncompleted⟩]
    (fun _ => rfl)
    (Except.ok ()) (Except.ok ()) (Except.ok ()) (Except.ok ())
    (⟨(), ActionState.uncompleted⟩ : StatefulAction Unit)
    (⟨(), ActionState.uncompleted⟩ : StatefulAction Unit)
    rfl
  have h2 := composite_reverse_order_revert
    (fun _ => Except.ok ()) (fun _ => Except.ok ())
    (fun _ => Except.ok ()) (fun _ => Except.ok ())
    [(⟨(), ActionState.completed⟩ : StatefulAction Unit)]
    [(⟨(), ActionState.completed⟩ : StatefulAction Unit),
     ⟨(), ActionState.completed⟩]
    (fun _ => rfl)
    (Except.ok ()) (Except.ok ()) (Except.ok ()) (Except.ok ())
    (⟨(), ActionState.completed⟩ : StatefulAction Unit)
    (⟨(), ActionState.completed⟩ : StatefulAction Unit)
    rfl
  exact ⟨h.1, h2.2.1, h.2.2.2.1, h2.2.2.2.2⟩

/-- C3: when exactly one concurrent file child of a
`ConfigureShellProfile` execute fails and the others succeed, the single
child error is propagated (no aggregate error), every succeeding child is
written back as `Completed`, and the slot of the failing child keeps its
`Uncompleted` state. -/
theorem configureShellProfile_single_failure_writeback
    (fileInner : Nat → Except ActionError Unit)
    (files : List (StatefulAction Unit)) (i : Nat) (e : ActionError)
    (hall : ∀ f ∈ files, f.state = ActionState.uncompleted)
    (hi : i < files.length)
    (hfail : fileInner i = Except.error e)
    (hok : ∀ j, j < files.length → j ≠ i → fileInner j = Except.ok ()) :
    (ConfigureShellProfile.executeModel (fun _ => Except.ok ()) fileInner
        ([] : List (StatefulAction Unit)) files).result = Except.error e
    ∧ (∀ j, j < files.length → j ≠ i →
        ((ConfigureShellProfile.executeModel (fun _ => Except.ok ()) fileInner
          ([] : List (StatefulAction Unit)) files).files.get? j).map
            StatefulAction.state = some ActionState.completed)
    ∧ ((ConfigureShellProfile.executeModel (fun _ => Except.ok ()) fileInner
        ([] : List (StatefulAction Unit)) files).files.get? i).map
          StatefulAction.state = some ActionState.uncompleted := by
  have herrs : (runFilesExecute fileInner 0 files).2.2 = [e] := by
    rw [runFilesExecute_errors fileInner 0 files hall]
    exact filterMap_range'_single (fun j => exceptError (fileInner j)) e 0
      files.length i hi
      (by simp [hfail, exceptError])
      (fun j hj hne => by simp [hok j hj hne, exceptError])
  refine ⟨?_, ?_, ?_⟩
  · rw [executeModel_no_dirs]
    show foldChildErrors configureShellProfileTag
      (runFilesExecute fileInner 0 files).2.2 = Except.error e
    rw [herrs]; rfl
  · intro j hj hne
    rw [executeModel_no_dirs]
    show ((runFilesExecute fileInner 0 files).2.1.get? j).map
      StatefulAction.state = some ActionState.completed
    rw [runFilesExecute_get? fileInner 0 files hall j]
    cases hg : files.get? j with
    | none =>
      rw [List.get?_eq_none] at hg
      omega
    | some f =>
      simp [Nat.zero_add, hok j hj hne]
  · rw [executeModel_no_dirs]
    show ((runFilesExecute fileInner 0 files).2.1.get? i).map
      StatefulAction.state = some ActionState.uncompleted
    rw [runFilesExecute_get? fileInner 0 files hall i]
    cases hg : files.get? i with
    | none =>
      rw [List.get?_eq_none] at hg
      omega
    | some f =>
      have hf : f.state = ActionState.uncompleted :=
        hall f (List.get?_mem hg)
      simp [Nat.zero_add, hfail, hf]

/-- Witness for C3: a concrete composite with two file children of which
the second fails: the single error is propagated, the first child is
written back `Completed`, the second keeps `Uncompleted`. -/
theorem configureShellProfile_single_failure_writeback_witness :
    (ConfigureShellProfile.executeModel (fun _ => Except.ok ())
        (fun j => if j = 1 then
            Except.error ("w", ActionErrorKind.systemdMissing)
          else Except.ok ())
        ([] : List (StatefulAction Unit))
        [⟨(), ActionState.uncompleted⟩, ⟨(), ActionState.uncompleted⟩]).result
      = Except.error ("w", ActionErrorKind.systemdMissing)
    ∧ ((ConfigureShellProfile.executeModel (fun _ => Except.ok ())
        (fun j => if j = 1 then
            Except.error ("w", ActionErrorKind.systemdMissing)
          else Except.ok ())
        ([] : List (StatefulAction Unit))
        [⟨(), ActionState.uncompleted⟩,
         ⟨(), ActionState.uncompleted⟩]).files.get? 0).map
        StatefulAction.state = some ActionState.completed
    ∧ ((ConfigureShellProfile.executeModel (fun _ => Except.ok ())
        (fun j => if j = 1 then
            Except.error ("w", ActionErrorKind.systemdMissing)
          else Except.ok ())
        ([] : List (StatefulAction Unit))
        [⟨(), ActionState.uncompleted⟩,
         ⟨(), ActionState.uncompleted⟩]).files.get? 1).map
        StatefulAction.state = some ActionState.uncompleted := by
  have h := configureShellProfile_single_failure_writeback
    (fun j => if j = 1 then Except.error ("w", ActionErrorKind.systemdMissing)
      else Except.ok ())
    [⟨(), ActionState.uncompleted⟩, ⟨(), ActionState.uncompleted⟩]
    1 ("w", ActionErrorKind.systemdMissing)
    (by decide) (by decide) rfl
    (fun j hj hne => by
      match j with
      | 0 => rfl
      | 1 => exact absurd rfl hne
      | n + 2 => simp at hj)
  exact ⟨h.1, h.2.1 0 (by decide) (by decide), h.2.2⟩

/-- C4: `CreateNixGcService::plan` is idempotency-by-inspection with
conflict detection: an existing plist that parses equal to the expected
generated plist is planned `Completed`; an existing plist with different
content is the `DifferentPlist` error, never silently overwritten; an
absent plist is planned `Uncompleted`. -/
theorem createNixGcService_plan_inspection (home : String)
    (needsBootout : Bool) (parsed : Except ActionErrorKind LaunchctlGcPlist) :
    (∀ p, parsed = Except.ok p → p = generatePlist home "org.nixos.nix-gc" →
      CreateNixGcService.planModel home (Except.ok needsBootout) true parsed
        = Except.ok (StatefulAction.completedOf
            ⟨home ++ "/Library/LaunchAgents",
             home ++ "/Library/LaunchAgents" ++ "/org.nixos.nix-gc.plist",
             "org.nixos.nix-gc", needsBootout⟩))
    ∧ (∀ p, parsed = Except.ok p → p ≠ generatePlist home "org.nixos.nix-gc" →
      CreateNixGcService.planModel home (Except.ok needsBootout) true parsed
        = Except.error (mkActionError createNixGcServiceTag
            (ActionErrorKind.custom
              (CustomError.differentPlist
                (generatePlist home "org.nixos.nix-gc") p
                (home ++ "/Library/LaunchAgents" ++ "/org.nixos.nix-gc.plist")))))
    ∧ (CreateNixGcService.planModel home (Except.ok needsBootout) false parsed
        = Except.ok (StatefulAction.uncompletedOf
            ⟨home ++ "/Library/LaunchAgents",
             home ++ "/Library/LaunchAgents" ++ "/org.nixos.nix-gc.plist",
             "org.nixos.nix-gc", needsBootout⟩)) := by
  refine ⟨fun p hp heq => ?_, fun p hp hne => ?_, rfl⟩
  · subst hp
    simp [CreateNixGcService.planModel, heq, String.append_assoc]
  · subst hp
    simp [CreateNixGcService.planModel, hne, String.append_assoc]

/-- Witness for C4: with the home directory `/Users/u`, a plist on disk
equal to the generated one is planned `Completed`; one whose label differs
is the `DifferentPlist` conflict error; an absent plist file is planned
`Uncompleted`. -/
theorem createNixGcService_plan_inspection_witness :
    (CreateNixGcService.planModel "/Users/u" (Except.ok false) true
        (Except.ok (generatePlist "/Users/u" "org.nixos.nix-gc"))
      = Except.ok (StatefulAction.completedOf
          ⟨"/Users/u" ++ "/Library/LaunchAgents",
           "/Users/u" ++ "/Library/LaunchAgents" ++ "/org.nixos.nix-gc.plist",
           "org.nixos.nix-gc", false⟩))
    ∧ (CreateNixGcService.planModel "/Users/u" (Except.ok false) true
        (Except.ok (generatePlist "/Users/u" "other.label"))
      = Except.error (mkActionError createNixGcServiceTag
          (ActionErrorKind.custom
            (CustomError.differentPlist
              (generatePlist "/Users/u" "org.nixos.nix-gc")
              (generatePlist "/Users/u" "other.label")
              ("/Users/u" ++ "/Library/LaunchAgents" ++ "/org.nixos.nix-gc.plist")))))
    ∧ (CreateNixGcService.planModel "/Users/u" (Except.ok false) false
        (Except.ok (generatePlist "/Users/u" "org.nixos.nix-gc"))
      = Except.ok (StatefulAction.uncompletedOf
          ⟨"/Users/u" ++ "/Library/LaunchAgents",
           "/Users/u" ++ "/Library/LaunchAgents" ++ "/org.nixos.nix-gc.plist",
           "org.nixos.nix-gc", false⟩)) := by
  have h1 := createNixGcService_plan_inspection "/Users/u" false
    (Except.ok (generatePlist "/Users/u" "org.nixos.nix-gc"))
  have h2 := createNixGcService_plan_inspection "/Users/u" false
    (Except.ok (generatePlist "/Users/u" "other.label"))
  exact ⟨h1.1 (generatePlist "/Users/u" "org.nixos.nix-gc") rfl rfl,
         h2.2.1 (generatePlist "/Users/u" "other.label") rfl (by decide),
         h1.2.2⟩

/-- C5 (code evaluation): with no matching keychain password, the created
volume not yet planned complete, and the `diskutil apfs list` output
containing a volume named `Nix Store`, `EncryptApfsVolume::plan` returns
the `ExistingVolumeNotEncrypted` error precisely when the listed volume IS
encrypted (`encryption = true`), and plans `Completed` precisely when the
listed volume is NOT encrypted — the opposite of the documented intent of
the error and of the comment above the check. -/
theorem encryptApfsVolume_plan_encryption_check :
    (EncryptApfsVolume.planModel "disk3" "Nix Store" (Except.ok false)
        ActionState.uncompleted
        (Except.ok ⟨[⟨[⟨some "Nix Store", true⟩]⟩]⟩)
      = Except.error (mkActionError encryptApfsVolumeTag
          (ActionErrorKind.custom
            (CustomError.existingVolumeNotEncrypted "Nix Store" "disk3"))))
    ∧ (EncryptApfsVolume.planModel "disk3" "Nix Store" (Except.ok false)
        ActionState.uncompleted
        (Except.ok ⟨[⟨[⟨some "Nix Store", false⟩]⟩]⟩)
      = Except.ok (StatefulAction.completedOf ⟨"disk3", "Nix Store"⟩)) := by
  exact ⟨rfl, rfl⟩

/-- C6 (code evaluation): `MountApfsVolume::execute` issues
`diskutil mount` exactly when `diskutil info` reports a mount point (the
volume is already mounted) and skips exactly when the volume is unmounted —
the opposite of the documented skip, whose debug log in the taken skip
branch reads that the volume was already mounted. -/
theorem mountApfsVolume_execute_mount_dispatch :
    (MountApfsVolume.executeModel "Nix Store"
        (Except.ok ⟨"UUID-1", some "/nix"⟩) (Except.ok ())
      = ([DiskUtilCmd.mount "Nix Store"], Except.ok ()))
    ∧ (MountApfsVolume.executeModel "Nix Store"
        (Except.ok ⟨"UUID-1", none⟩) (Except.ok ())
      = ([], Except.ok ())) := by
  exact ⟨rfl, rfl⟩

/-- C7 (code evaluation): `MountApfsVolume::revert` is the same function as
its `execute`: on a volume with a mount point it issues the forward
`diskutil mount` command rather than an unmount, and on an unmounted volume
it is a successful no-op. -/
theorem mountApfsVolume_revert_issues_forward_mount :
    MountApfsVolume.revertModel = MountApfsVolume.executeModel
    ∧ (MountApfsVolume.revertModel "Nix Store"
        (Except.ok ⟨"UUID-1", some "/nix"⟩) (Except.ok ())
      = ([DiskUtilCmd.mount "Nix Store"], Except.ok ()))
    ∧ (MountApfsVolume.revertModel "Nix Store"
        (Except.ok ⟨"UUID-1", none⟩) (Except.ok ())
      = ([], Except.ok ())) := by
  exact ⟨rfl, rfl, rfl⟩

/-- C8: on a systemd host, `ConfigureInitService::plan` surfaces
pre-existing conflicting unit resources as plan-time errors: `FileExists`
when the service unit destination exists as a regular file, `SymlinkExists`
when it is a symlink pointing somewhere other than the expected source,
`DirExists` when the override directory `dest + ".d"` exists; a symlink
already pointing at the expected source is not a conflict, and with both
unit destinations clean the action is planned `Uncompleted`. -/
theorem configureInitService_plan_conflicts (startDaemon : Bool)
    (svc sock : UnitDestState) :
    (svc.destPresent = true → svc.destIsSymlink = false →
      ConfigureInitService.planModelSystemd startDaemon true true svc sock
        = Except.error (mkActionError configureInitServiceTag
            (ActionErrorKind.fileExists serviceDest)))
    ∧ (∀ d, svc.destPresent = true → svc.destIsSymlink = true →
      svc.linkDest = Except.ok d → d ≠ serviceSrc →
      ConfigureInitService.planModelSystemd startDaemon true true svc sock
        = Except.error (mkActionError configureInitServiceTag
            (ActionErrorKind.symlinkExists serviceDest)))
    ∧ (svc.destPresent = false → svc.dotDPresent = true →
      ConfigureInitService.planModelSystemd startDaemon true true svc sock
        = Except.error (mkActionError configureInitServiceTag
            (ActionErrorKind.dirExists (serviceDest ++ ".d"))))
    ∧ (svc.destPresent = true → svc.destIsSymlink = true →
      svc.linkDest = Except.ok serviceSrc → svc.dotDPresent = true →
      ConfigureInitService.planModelSystemd startDaemon true true svc sock
        = Except.error (mkActionError configureInitServiceTag
            (ActionErrorKind.dirExists (serviceDest ++ ".d"))))
    ∧ (checkIfSystemdUnitExists serviceSrc serviceDest svc = Except.ok () →
      checkIfSystemdUnitExists socketSrc socketDest sock = Except.ok () →
      ConfigureInitService.planModelSystemd startDaemon true true svc sock
        = Except.ok (StatefulAction.uncompletedOf
            ⟨InitSystem.systemd, startDaemon⟩)) := by
  refine ⟨fun h1 h2 => ?_, fun d h1 h2 h3 h4 => ?_, fun h1 h2 => ?_,
          fun h1 h2 h3 h4 => ?_, fun h1 h2 => ?_⟩
  · simp [ConfigureInitService.planModelSystemd, checkIfSystemdUnitExists,
      h1, h2]
  · simp [ConfigureInitService.planModelSystemd, checkIfSystemdUnitExists,
      h1, h2, h3, h4]
  · simp [ConfigureInitService.planModelSystemd, checkIfSystemdUnitExists,
      h1, h2]
  · simp [ConfigureInitService.planModelSystemd, checkIfSystemdUnitExists,
      h1, h2, h3, h4]
  · simp [ConfigureInitService.planModelSystemd, h1, h2]

/-- Witness for C8: a service unit destination occupied by a regular file
is the `FileExists` conflict; with both destinations clean (the service
unit a symlink already pointing at the expected source) the action is
planned `Uncompleted`. -/
theorem configureInitService_plan_conflicts_witness :
    (ConfigureInitService.planModelSystemd true true true
        ⟨true, false, Except.ok "", false⟩
        ⟨false, false, Except.ok "", false⟩
      = Except.error (mkActionError configureInitServiceTag
          (ActionErrorKind.fileExists serviceDest)))
    ∧ (ConfigureInitService.planModelSystemd true true true
        ⟨true, true, Except.ok serviceSrc, false⟩
        ⟨false, false, Except.ok "", false⟩
      = Except.ok (StatefulAction.uncompletedOf
          ⟨InitSystem.systemd, true⟩)) := by
  have h1 := configureInitService_plan_conflicts true
    ⟨true, false, Except.ok "", false⟩ ⟨false, false, Except.ok "", false⟩
  have h2 := configureInitService_plan_conflicts true
    ⟨true, true, Except.ok serviceSrc, false⟩
    ⟨false, false, Except.ok "", false⟩
  exact ⟨h1.1 rfl rfl, h2.2.2.2.2 rfl rfl⟩

/-- C9, counterexample: the discriminator under which `MoveUnpackedNix`
serializes is `mount_unpacked_nix`, not its declared action tag
`move_unpacked_nix`, and the discriminator of `MountApfsVolume` is
`unmount_volume`, not `mount_apfs_volume`. -/
theorem actionVariant_discriminator_mismatch :
    ActionVariant.typetagName ActionVariant.moveUnpackedNix
      ≠ ActionVariant.actionTag ActionVariant.moveUnpackedNix
    ∧ ActionVariant.typetagName ActionVariant.mountApfsVolume
      ≠ ActionVariant.actionTag ActionVariant.mountApfsVolume := by
  decide

/-- C9, amended: serializing a variant under its typetag discriminator and
deserializing by that discriminator yields the same variant; the
discriminator equals the declared action tag for every sampled variant
except `MoveUnpackedNix` (discriminator `mount_unpacked_nix`),
`MountApfsVolume` (discriminator `unmount_volume`) and `EncryptApfsVolume`
(discriminator `encrypt_volume`). -/
theorem actionVariant_roundtrip_amended (v : ActionVariant) :
    deserializeVariant v.typetagName = some v
    ∧ (v ≠ ActionVariant.moveUnpackedNix →
       v ≠ ActionVariant.mountApfsVolume →
       v ≠ ActionVariant.encryptApfsVolume →
       v.typetagName = v.actionTag) := by
  cases v <;>
    refine ⟨by decide, fun h1 h2 h3 => ?_⟩ <;>
    first
      | rfl
      | exact absurd rfl h1
      | exact absurd rfl h2
      | exact absurd rfl h3

/-- Witness for C9 (amended): `ConfigureShellProfile` roundtrips through
its discriminator, which equals its action tag. -/
theorem actionVariant_roundtrip_amended_witness :
    deserializeVariant
        (ActionVariant.typetagName ActionVariant.configureShellProfile)
      = some ActionVariant.configureShellProfile
    ∧ ActionVariant.typetagName ActionVariant.configureShellProfile
      = ActionVariant.actionTag ActionVariant.configureShellProfile := by
  have h := actionVariant_roundtrip_amended ActionVariant.configureShellProfile
  exact ⟨h.1, h.2 (by decide) (by decide) (by decide)⟩

/-- C10: `MoveUnpackedNix::execute` requires the glob over
`{scratch}/nix-*` to match exactly one path: zero or several matches fail
with `MalformedBinaryTarball` before any filesystem mutation is issued, so
the destination store is unchanged on that error. -/
theorem moveUnpackedNix_glob_arity_guard (a : MoveUnpackedNix)
    (ctx : MoveCtx) (h : ctx.foundNixPaths.length ≠ 1) :
    MoveUnpackedNix.executeModel a ctx
      = ([], Except.error (mkActionError moveUnpackedNixTag
          ActionErrorKind.malformedBinaryTarball)) := by
  unfold MoveUnpackedNix.executeModel
  rw [if_pos h]

/-- Witness for C10: with zero glob matches, and with two glob matches,
execute fails with `MalformedBinaryTarball` and issues no mutation. -/
theorem moveUnpackedNix_glob_arity_guard_witness :
    MoveUnpackedNix.executeModel ⟨"/nix/temp-install-dir", "nixbld"⟩
        ⟨[], Except.ok [], false, false, none, fun _ => false, fun _ => []⟩
      = ([], Except.error (mkActionError moveUnpackedNixTag
          ActionErrorKind.malformedBinaryTarball))
    ∧ MoveUnpackedNix.executeModel ⟨"/nix/temp-install-dir", "nixbld"⟩
        ⟨["/nix/temp-install-dir/nix-2.19.2",
          "/nix/temp-install-dir/nix-2.20.0"],
         Except.ok [], false, false, none, fun _ => false, fun _ => []⟩
      = ([], Except.error (mkActionError moveUnpackedNixTag
          ActionErrorKind.malformedBinaryTarball)) := by
  exact ⟨moveUnpackedNix_glob_arity_guard _ _ (by decide),
         moveUnpackedNix_glob_arity_guard _ _ (by decide)⟩

end NixInstaller
